import Mathlib

/-!
# Verification of the divisibility predicate repository

Shallow embedding of `src/main.cpp`:

```cpp
struct Data { uint32_t a; uint32_t d; };

bool foobar(const Data& data) {
    if (! data.a || ! data.d) return false;
    uint32_t result = data.d % data.a;
    return result == 0;
}

int main() {
    Data data { .a = 5, .d = 55 };
    const auto result = foobar(data);
    return result;
}
```

The two `uint32_t` fields are embedded as `Nat`: every unsigned 32-bit
value corresponds to a natural number below `2 ^ 32`, and `foobar`
performs no arithmetic other than `%`, which on those values coincides
with `Nat.mod` (no overflow is possible), so the embedding over `Nat`
is exact on the `uint32_t` range.
-/

/-- The C++ aggregate `struct Data { uint32_t a; uint32_t d; }`.
`a` is the divisor candidate, `d` the dividend candidate. -/
structure Data where
  a : Nat
  d : Nat
deriving Repr, DecidableEq

/-- The C++ predicate `bool foobar(const Data& data)`.
`! data.a || ! data.d` is the C++ zero test on the unsigned fields;
otherwise the result is whether `data.d % data.a` equals `0`. -/
def foobar (data : Data) : Bool :=
  if data.a = 0 ∨ data.d = 0 then false
  else data.d % data.a == 0

/-- C++ unsigned modulo with its trapping behaviour made explicit:
`d % a` is undefined (traps) when `a = 0`, and otherwise is the
ordinary truncating unsigned remainder. -/
def checkedMod (d a : Nat) : Option Nat :=
  if a = 0 then none else some (d % a)

/-- `foobar` re-expressed with the trapping modulo: the guard on line 11
of `main.cpp` returns `false` before the modulo on line 13 runs, so the
modulo is only reached with a nonzero divisor. -/
def foobarChecked (data : Data) : Option Bool :=
  if data.a = 0 ∨ data.d = 0 then some false
  else (checkedMod data.d data.a).map (fun r => r == 0)

/-- The call `foobar(data)` with `data` passed by `const Data&`: the
callee reads the caller's storage and cannot mutate it, so the call
yields the boolean result together with the caller's storage after the
call, which the `const` qualifier fixes to be the original storage. -/
def foobarCall (data : Data) : Bool × Data :=
  (foobar data, data)

/-- The fixture `Data data { .a = 5, .d = 55 };` constructed in `main`. -/
def mainFixture : Data :=
  { a := 5, d := 55 }

/-- The C++ implicit conversion from `bool` to `int` applied by
`return result;` in `main`: `true` becomes `1`, `false` becomes `0`. -/
def boolToExit (b : Bool) : Nat :=
  if b then 1 else 0

/-- The driver `int main()`: it builds the fixture, calls `foobar`
once, and returns the converted boolean. The embedding records the one
boolean result and the process exit status it produces. -/
def mainRun : Bool × Nat :=
  let result := foobar mainFixture
  (result, boolToExit result)

/-- The process exit status of the program. -/
def mainExit : Nat :=
  mainRun.2

/-- C1: for every pair `(a, d)`, `foobar` returns `true` iff `a` is
nonzero, `d` is nonzero and `d % a = 0`; in particular it returns
`true` on `(5, 55)` and `false` on `(5, 56)`. -/
theorem foobar_true_iff :
    (∀ a d : Nat, foobar ⟨a, d⟩ = true ↔ a ≠ 0 ∧ d ≠ 0 ∧ d % a = 0) ∧
    foobar ⟨5, 55⟩ = true ∧ foobar ⟨5, 56⟩ = false := by
  refine ⟨fun a d => ?_, by decide, by decide⟩
  unfold foobar
  by_cases ha : a = 0
  · simp [ha]
  · by_cases hd : d = 0
    · simp [ha, hd]
    · simp [ha, hd]

/-- C2: `foobar` returns `false` whenever `a = 0` (for every `d`) and
whenever `d = 0` (for every `a`). -/
theorem foobar_zero_guard :
    ∀ a d : Nat, foobar ⟨0, d⟩ = false ∧ foobar ⟨a, 0⟩ = false := by
  intro a d
  constructor
  · unfold foobar; simp
  · unfold foobar; simp

/-- C3: `foobar` is total and never divides by zero: on every input the
version whose modulo traps on a zero divisor still returns a defined
boolean, and that boolean is exactly `foobar`'s result. -/
theorem foobar_total_no_trap :
    ∀ data : Data, foobarChecked data = some (foobar data) := by
  intro ⟨a, d⟩
  unfold foobarChecked foobar checkedMod
  by_cases ha : a = 0
  · simp [ha]
  · by_cases hd : d = 0
    · simp [hd]
    · simp [ha, hd]

/-- C4: the driver builds one fixed pair, calls the predicate once, and
the exit status is exactly that one boolean result: `1` when it is
`true`, `0` when it is `false`. -/
theorem main_exit_is_result :
    mainRun.1 = foobar mainFixture ∧
    mainExit = boolToExit mainRun.1 ∧
    (mainRun.1 = true → mainExit = 1) ∧
    (mainRun.1 = false → mainExit = 0) := by
  refine ⟨rfl, rfl, ?_, ?_⟩ <;> decide

/-- C5: for every nonzero `n`, `foobar` on the pair `(a = n, d = n)`
returns `true`. -/
theorem foobar_self (n : Nat) (h : n ≠ 0) : foobar ⟨n, n⟩ = true := by
  unfold foobar
  simp [h, Nat.mod_self]

/-- Witness for C5 at `n = 7`. -/
theorem foobar_self_witness : foobar ⟨7, 7⟩ = true :=
  foobar_self 7 (by decide)

/-- C6: for every nonzero `d`, `foobar` on the pair `(a = 1, d)`
returns `true`. -/
theorem foobar_one (d : Nat) (h : d ≠ 0) : foobar ⟨1, d⟩ = true := by
  unfold foobar
  simp [h, Nat.mod_one]

/-- Witness for C6 at `d = 42`. -/
theorem foobar_one_witness : foobar ⟨1, 42⟩ = true :=
  foobar_one 42 (by decide)

/-- C7: the predicate is deterministic and stateless: its result is
determined by the two fields alone, so two calls on pairs holding the
same field values — in particular two successive calls on the same
pair — return the same boolean. -/
theorem foobar_deterministic (p q : Data) (ha : p.a = q.a) (hd : p.d = q.d) :
    foobar p = foobar q := by
  obtain ⟨pa, pd⟩ := p
  obtain ⟨qa, qd⟩ := q
  simp only at ha hd
  rw [ha, hd]

/-- Witness for C7 at two pairs both holding `(5, 55)`. -/
theorem foobar_deterministic_witness :
    foobar ⟨5, 55⟩ = foobar ⟨5, 55⟩ :=
  foobar_deterministic ⟨5, 55⟩ ⟨5, 55⟩ rfl rfl

/-- C8: the call has no side effects: the caller's storage (both
fields) is unchanged after the call, and the returned boolean is a
function of the two fields alone. -/
theorem foobar_no_side_effects :
    ∀ p : Data, (foobarCall p).2.a = p.a ∧ (foobarCall p).2.d = p.d ∧
      (foobarCall p).1 = foobar ⟨p.a, p.d⟩ := by
  intro ⟨a, d⟩
  exact ⟨rfl, rfl, rfl⟩

/-- C9: whenever `foobar` returns `true` on `(a, d)`, the divisor
satisfies `1 ≤ a ∧ a ≤ d`; equivalently, `0 < d < a` forces `false`. -/
theorem foobar_true_bounds (a d : Nat) (h : foobar ⟨a, d⟩ = true) :
    1 ≤ a ∧ a ≤ d := by
  unfold foobar at h
  by_cases ha : a = 0
  · simp [ha] at h
  · by_cases hd : d = 0
    · simp [hd] at h
    · simp only [ha, hd, or_self, if_neg, ite_false, beq_iff_eq] at h
      have hdvd : a ∣ d := Nat.dvd_of_mod_eq_zero (by simpa using h)
      exact ⟨Nat.one_le_iff_ne_zero.mpr ha,
        Nat.le_of_dvd (Nat.pos_of_ne_zero hd) hdvd⟩

/-- Witness for C9 at the pair `(5, 55)`. -/
theorem foobar_true_bounds_witness : 1 ≤ 5 ∧ 5 ≤ 55 :=
  foobar_true_bounds 5 55 (by decide)

/-- C10: with the hard-coded fixture `(a = 5, d = 55)` the predicate
evaluates to `true` and `main` returns exactly `1`. -/
theorem main_returns_one :
    foobar mainFixture = true ∧ mainExit = 1 := by
  decide
